import Mathlib

/-!
Verification development for the ClipPersona backend HTTP server
(src/Backend/api_server.py). The server is embedded shallowly: each Flask
route handler becomes a pure Lean function from the request data (method,
parsed JSON body, multipart file fields, caller address) and a filesystem
state to a response and a new filesystem state. Python dynamic-typing
behaviour that the handlers rely on (truthiness of values, the `in`
membership test, subscripting) is modelled on a JSON value type, with
Python runtime type errors represented in an Except monad.
-/

namespace ClipPersona

/-- A parsed JSON value, as Python `request.json` would produce it
(dict, list, str, int, bool, None). -/
inductive Json where
  | null : Json
  | bool (b : Bool) : Json
  | num (n : Int) : Json
  | str (s : String) : Json
  | arr (elems : List Json) : Json
  | obj (fields : List (String × Json)) : Json
deriving Repr

/-- Python truthiness of a JSON value, as tested by `if not data`. -/
def truthy : Json → Bool
  | .null => false
  | .bool b => b
  | .num n => n != 0
  | .str s => s != ""
  | .arr es => !es.isEmpty
  | .obj fs => !fs.isEmpty

/-- Does the character list `needle` occur at the head of `hay`? -/
def charsStartWith : List Char → List Char → Bool
  | [], _ => true
  | _ :: _, [] => false
  | n :: ns, h :: hs => (n = h) && charsStartWith ns hs

/-- Does the character list `needle` occur anywhere inside `hay`? -/
def charsContain (needle : List Char) : List Char → Bool
  | [] => charsStartWith needle []
  | h :: hs => charsStartWith needle (h :: hs) || charsContain needle hs

/-- Python substring containment `needle in hay` on strings. -/
def strContains (hay needle : String) : Bool :=
  charsContain needle.data hay.data

/-- First binding of `key` in a parsed JSON object, as Python dict lookup. -/
def lookupField (fields : List (String × Json)) (key : String) : Option Json :=
  (fields.find? (fun kv => kv.1 = key)).map (fun kv => kv.2)

/-- Python membership test `key in data` for a string `key` against a JSON
value: key lookup on dicts, substring test on strings, element equality on
lists, and a TypeError on the remaining types. -/
def pyContains (key : String) : Json → Except String Bool
  | .obj fs => .ok (fs.any (fun kv => kv.1 = key))
  | .str s => .ok (strContains s key)
  | .arr es => .ok (es.any (fun e =>
      match e with
      | .str s => s = key
      | _ => false))
  | .null => .error "argument of type NoneType is not iterable"
  | .bool _ => .error "argument of type bool is not iterable"
  | .num _ => .error "argument of type int is not iterable"

/-- Python subscript `data[key]` for a string `key`: dict lookup, and a
TypeError on non-dict values (string indices must be integers, etc.). -/
def pyIndex (key : String) : Json → Except String Json
  | .obj fs =>
      match lookupField fs key with
      | some v => .ok v
      | none => .error ("KeyError: " ++ key)
  | .str _ => .error "string indices must be integers"
  | .arr _ => .error "list indices must be integers or slices, not str"
  | .null => .error "NoneType object is not subscriptable"
  | .bool _ => .error "bool object is not subscriptable"
  | .num _ => .error "int object is not subscriptable"

mutual
/-- Python `repr()` of a JSON value, used for elements inside containers
(strings gain quotes there). -/
def pyRepr : Json → String
  | .null => "None"
  | .bool true => "True"
  | .bool false => "False"
  | .num n => toString n
  | .str s => "\x27" ++ s ++ "\x27"
  | .arr es => "[" ++ pyReprList es ++ "]"
  | .obj fs => "\x7b" ++ pyReprFields fs ++ "\x7d"

/-- Comma-separated Python reprs of a list of values. -/
def pyReprList : List Json → String
  | [] => ""
  | [j] => pyRepr j
  | j :: js => pyRepr j ++ ", " ++ pyReprList js

/-- Comma-separated Python reprs of dict entries. -/
def pyReprFields : List (String × Json) → String
  | [] => ""
  | [(k, v)] => "\x27" ++ k ++ "\x27: " ++ pyRepr v
  | (k, v) :: fs => "\x27" ++ k ++ "\x27: " ++ pyRepr v ++ ", " ++ pyReprFields fs
end

/-- Python `str()` of a JSON value, as interpolated by an f-string: a
string stays as is, containers render as their repr. -/
def pyStr : Json → String
  | .null => "None"
  | .bool true => "True"
  | .bool false => "False"
  | .num n => toString n
  | .str s => s
  | .arr es => "[" ++ pyReprList es ++ "]"
  | .obj fs => "\x7b" ++ pyReprFields fs ++ "\x7d"

/-- HTTP method of a request. -/
inductive Method where
  | GET | POST | PUT | DELETE | OPTIONS | HEAD | PATCH
deriving Repr, DecidableEq

/-- Body of an HTTP response: `make_response` with an empty
string gives an empty body, `jsonify` gives a JSON body, and framework
default error pages are HTML. -/
inductive Body where
  | empty : Body
  | json (j : Json) : Body
  | html (s : String) : Body
  | file (c : List Nat) : Body
deriving Repr

/-- An HTTP response: status code, body, and accumulated headers. -/
structure Response where
  status : Nat
  body : Body
  headers : List (String × String)
deriving Repr

/-- `jsonify(...)` with an explicit status code (200 when omitted). -/
def jsonResp (status : Nat) (j : Json) : Response :=
  ⟨status, .json j, []⟩

/-- `make_response('', status)`: an empty body. -/
def emptyResp (status : Nat) : Response :=
  ⟨status, .empty, []⟩

/-- One file field of a multipart upload: the client-supplied filename and
the raw bytes of the content. -/
structure FilePart where
  filename : String
  content : List Nat
deriving Repr, DecidableEq

/-- The filesystem state the server touches: the set of directories that
exist and a map from file path to file content (first binding wins). -/
structure FS where
  dirs : List String
  files : List (String × List Nat)
deriving Repr, DecidableEq

/-- `os.path.exists(p)`: true if `p` is an existing directory or file. -/
def pathExists (fs : FS) (p : String) : Bool :=
  fs.dirs.contains p || fs.files.any (fun f => f.1 = p)

/-- `os.makedirs(p)`: record the directory as existing. -/
def makedirs (fs : FS) (p : String) : FS :=
  ⟨p :: fs.dirs, fs.files⟩

/-- `file.save(p)`: write the content at path `p`, replacing any previous
file at that path. -/
def saveFile (fs : FS) (p : String) (c : List Nat) : FS :=
  ⟨fs.dirs, (p, c) :: fs.files.filter (fun f => f.1 ≠ p)⟩

/-- Read back the content stored at path `p`, if any. -/
def readFile (fs : FS) (p : String) : Option (List Nat) :=
  (fs.files.find? (fun f => f.1 = p)).map (fun f => f.2)

/-- `os.path.join(a, b)` with POSIX separators: an absolute second
component discards the first. -/
def os_path_join (a b : String) : String :=
  if charsStartWith "/".data b.data then b else a ++ "/" ++ b

/-- An incoming HTTP request: method, path, caller address
(`request.remote_addr`), parsed JSON body (`request.json`, `none` when the
body parses to JSON null), and multipart file fields (`request.files`). -/
structure Request where
  method : Method
  path : String
  remote_addr : String
  jsonBody : Option Json
  files : List (String × FilePart)
deriving Repr

/-- The three CORS headers `after_request` adds to every response. -/
def corsHeaders : List (String × String) :=
  [("Access-Control-Allow-Origin", "*"),
   ("Access-Control-Allow-Headers", "Content-Type,Authorization"),
   ("Access-Control-Allow-Methods", "GET,PUT,POST,DELETE,OPTIONS")]

/-- The `after_request` hook: append the CORS headers to any response. -/
def after_request (r : Response) : Response :=
  ⟨r.status, r.body, r.headers ++ corsHeaders⟩

/-- The 404 error handler `not_found`. -/
def not_found : Response :=
  jsonResp 404 (.obj [("error", .str "Not found")])

/-- The 500 error handler `internal_error`, for faults outside handlers. -/
def internal_error : Response :=
  jsonResp 500 (.obj [("error", .str "Internal server error")])

/-- Framework default response for a method not accepted by a route. -/
def method_not_allowed : Response :=
  ⟨405, .html "405 Method Not Allowed", []⟩

/-- The `/health-check` handler `health_check`. -/
def health_check (method : Method) (remote_addr : String) : Response :=
  if method = Method.OPTIONS then emptyResp 200
  else
    jsonResp 200 (.obj
      [("status", .str "ok"),
       ("message", .str "服务器运行正常"),
       ("client_ip", .str remote_addr)])

/-- The `/process-video` handler `process_video`. A falsy body or a body
not containing the key yields the 400 error; a TypeError raised by the
membership test or the subscript is caught by the except branch and
yields a 500 with the exception text. -/
def process_video (method : Method) (jsonBody : Option Json) : Response :=
  if method = Method.OPTIONS then emptyResp 200
  else
    match jsonBody with
    | none => jsonResp 400 (.obj [("error", .str "缺少必要的参数")])
    | some data =>
      if truthy data = false then
        jsonResp 400 (.obj [("error", .str "缺少必要的参数")])
      else
        match pyContains "instruction" data with
        | .error e => jsonResp 500 (.obj [("error", .str e)])
        | .ok b =>
          if b = false then
            jsonResp 400 (.obj [("error", .str "缺少必要的参数")])
          else
            match pyIndex "instruction" data with
            | .error e => jsonResp 500 (.obj [("error", .str e)])
            | .ok instruction =>
              jsonResp 200 (.obj
                [("status", .str "success"),
                 ("message", .str ("收到指令: " ++ pyStr instruction)),
                 ("result", .str "视频处理完成")])

/-- The `/upload-video` handler `upload_video`: returns the response and
the filesystem state after the handler runs. -/
def upload_video (method : Method) (files : List (String × FilePart))
    (fs : FS) : Response × FS :=
  if method = Method.OPTIONS then (emptyResp 200, fs)
  else
    match files.find? (fun kv => kv.1 = "video") with
    | none => (jsonResp 400 (.obj [("error", .str "没有上传文件")]), fs)
    | some kv =>
      let video_file := kv.2
      if video_file.filename = "" then
        (jsonResp 400 (.obj [("error", .str "未选择文件")]), fs)
      else
        let upload_folder := "uploads"
        let fs1 := if pathExists fs upload_folder then fs
                   else makedirs fs upload_folder
        let file_path := os_path_join upload_folder video_file.filename
        let fs2 := saveFile fs1 file_path video_file.content
        (jsonResp 200 (.obj
          [("status", .str "success"),
           ("message", .str "视频上传成功"),
           ("file_path", .str file_path)]), fs2)

/-- The filename captured by the default static route
`/static/<path:filename>` that `Flask(__name__)` registers: the path must
start with `/static/` and the `path` converter requires a non-empty
remainder not beginning with a slash. -/
def staticFilename (p : String) : Option String :=
  if charsStartWith "/static/".data p.data then
    match p.data.drop 8 with
    | [] => none
    | c :: cs => if c = '/' then none else some (String.mk (c :: cs))
  else none

/-- The static route handler `send_static_file`: serve the file from the
`static` folder when it exists, otherwise the raised NotFound reaches the
404 handler. A preflight OPTIONS is answered by the automatic empty 200. -/
def send_static_file (method : Method) (filename : String) (fs : FS) :
    Response :=
  if method = Method.OPTIONS then emptyResp 200
  else
    match readFile fs ("static/" ++ filename) with
    | some c => ⟨200, .file c, []⟩
    | none => not_found

/-- Route dispatch: match the path against the registered routes and the
method against each route list (GET routes also accept HEAD). Besides the
three handlers, `Flask(__name__)` registers the default static route
`/static/<path:filename>` (GET, HEAD and the automatic OPTIONS); any
remaining path goes to the 404 handler. -/
def dispatch (req : Request) (fs : FS) : Response × FS :=
  if req.path = "/health-check" then
    if req.method = Method.GET ∨ req.method = Method.HEAD ∨
        req.method = Method.OPTIONS then
      (health_check req.method req.remote_addr, fs)
    else (method_not_allowed, fs)
  else if req.path = "/process-video" then
    if req.method = Method.POST ∨ req.method = Method.OPTIONS then
      (process_video req.method req.jsonBody, fs)
    else (method_not_allowed, fs)
  else if req.path = "/upload-video" then
    if req.method = Method.POST ∨ req.method = Method.OPTIONS then
      upload_video req.method req.files fs
    else (method_not_allowed, fs)
  else
    match staticFilename req.path with
    | some filename =>
      if req.method = Method.GET ∨ req.method = Method.HEAD ∨
          req.method = Method.OPTIONS then
        (send_static_file req.method filename fs, fs)
      else (method_not_allowed, fs)
    | none => (not_found, fs)

/-- Full request handling: dispatch, then the `after_request` hook on the
response. -/
def serve (req : Request) (fs : FS) : Response × FS :=
  (after_request (dispatch req fs).1, (dispatch req fs).2)

/-! ## General lemmas about the handlers -/

/-- A successful dict lookup yields a witness entry in the list. -/
theorem lookupField_some_iff (fields : List (String × Json)) (key : String)
    (v : Json) :
    lookupField fields key = some v ↔
      ∃ kv, fields.find? (fun kv => kv.1 = key) = some kv ∧ kv.2 = v := by
  unfold lookupField
  cases hf : fields.find? (fun kv => kv.1 = key) with
  | none => simp
  | some kv => simp

/-- An object whose lookup of a key succeeds answers `true` to the Python
membership test on that key. -/
theorem pyContains_of_lookup (fields : List (String × Json)) (key : String)
    (v : Json) (h : lookupField fields key = some v) :
    pyContains key (Json.obj fields) = .ok true := by
  obtain ⟨kv, hfind, -⟩ := (lookupField_some_iff fields key v).mp h
  have hmem := List.mem_of_find?_eq_some hfind
  have hkey : kv.1 = key := by simpa using List.find?_some hfind
  simp only [pyContains, Except.ok.injEq]
  exact List.any_eq_true.mpr ⟨kv, hmem, by simp [hkey]⟩

/-- An object whose lookup of a key succeeds is truthy (non-empty dict). -/
theorem truthy_of_lookup (fields : List (String × Json)) (key : String)
    (v : Json) (h : lookupField fields key = some v) :
    truthy (Json.obj fields) = true := by
  obtain ⟨kv, hfind, -⟩ := (lookupField_some_iff fields key v).mp h
  have hmem := List.mem_of_find?_eq_some hfind
  simp [truthy, List.isEmpty_iff, List.ne_nil_of_mem hmem]

/-- The success path of `process_video`: a POST whose JSON object body
binds `instruction` echoes the instruction. -/
theorem process_video_ok (fields : List (String × Json)) (instr : Json)
    (h : lookupField fields "instruction" = some instr) :
    process_video Method.POST (some (Json.obj fields)) =
      jsonResp 200 (Json.obj
        [("status", Json.str "success"),
         ("message", Json.str ("收到指令: " ++ pyStr instr)),
         ("result", Json.str "视频处理完成")]) := by
  simp [process_video, truthy_of_lookup fields "instruction" instr h,
    pyContains_of_lookup fields "instruction" instr h, pyIndex, h]

/-- The success path of `upload_video`: a POST whose files bind `video`
with a non-empty filename saves the content and reports the path. -/
theorem upload_video_ok (files : List (String × FilePart))
    (kv : String × FilePart) (fs : FS)
    (hfind : files.find? (fun x => x.1 = "video") = some kv)
    (hne : kv.2.filename ≠ "") :
    upload_video Method.POST files fs =
      (jsonResp 200 (Json.obj
        [("status", Json.str "success"),
         ("message", Json.str "视频上传成功"),
         ("file_path", Json.str (os_path_join "uploads" kv.2.filename))]),
       saveFile (if pathExists fs "uploads" then fs else makedirs fs "uploads")
         (os_path_join "uploads" kv.2.filename) kv.2.content) := by
  simp [upload_video, hfind, hne]

/-- The path the upload handler writes to is never the upload directory
itself. -/
theorem file_path_ne_uploads (f : String) :
    os_path_join "uploads" f ≠ "uploads" := by
  unfold os_path_join
  by_cases hsw : charsStartWith "/".data f.data
  · simp only [if_pos hsw]
    intro heq
    rw [heq] at hsw
    exact absurd hsw (by decide)
  · simp only [if_neg hsw]
    intro heq
    have hlen : ("uploads" ++ "/" ++ f).length = ("uploads" : String).length := by
      rw [heq]
    rw [String.length_append, String.length_append] at hlen
    have h7 : ("uploads" : String).length = 7 := by decide
    have h1 : ("/" : String).length = 1 := by decide
    omega

/-- After the upload handler saves a file, the upload directory exists. -/
theorem pathExists_uploads_after (fs : FS) (p : String) (c : List Nat)
    (hp : p ≠ "uploads") :
    pathExists (saveFile (if pathExists fs "uploads" then fs
      else makedirs fs "uploads") p c) "uploads" = true := by
  by_cases h : pathExists fs "uploads"
  · rw [if_pos h]
    simp [pathExists] at h
    simp [pathExists, saveFile]
    rcases h with hd | ⟨x, hx⟩
    · exact Or.inl hd
    · exact Or.inr (Or.inr ⟨⟨x, hx⟩, fun he => hp he.symm⟩)
  · rw [if_neg h]
    simp [pathExists, saveFile, makedirs]

/-- Reading back a just-saved path yields the saved content. -/
theorem readFile_saveFile (fs : FS) (p : String) (c : List Nat) :
    readFile (saveFile fs p c) p = some c := by
  simp [readFile, saveFile]

/-! ## The claims -/

/-- Claim C1: every POST /process-video request whose JSON body binds the
field `instruction` to a string (possibly empty) gets HTTP 200 with
status `success`, a message that is `收到指令: ` followed by the literal
instruction, and result exactly `视频处理完成`. -/
theorem process_video_request_echoes_instruction
    (fields : List (String × Json)) (s remote : String)
    (files : List (String × FilePart)) (fs : FS)
    (h : lookupField fields "instruction" = some (Json.str s)) :
    serve ⟨Method.POST, "/process-video", remote, some (Json.obj fields),
        files⟩ fs =
      (after_request (jsonResp 200 (Json.obj
        [("status", Json.str "success"),
         ("message", Json.str ("收到指令: " ++ s)),
         ("result", Json.str "视频处理完成")])), fs) := by
  have hok := process_video_ok fields (Json.str s) h
  simp [serve, dispatch, hok, pyStr]

/-- Witness for C1 at the example request of the spec. -/
theorem process_video_request_echoes_instruction_witness :
    lookupField [("instruction", Json.str "trim 0:00-0:10")] "instruction" =
      some (Json.str "trim 0:00-0:10") ∧
    serve ⟨Method.POST, "/process-video", "127.0.0.1",
        some (Json.obj [("instruction", Json.str "trim 0:00-0:10")]), []⟩
        ⟨[], []⟩ =
      (after_request (jsonResp 200 (Json.obj
        [("status", Json.str "success"),
         ("message", Json.str ("收到指令: " ++ "trim 0:00-0:10")),
         ("result", Json.str "视频处理完成")])), ⟨[], []⟩) :=
  ⟨rfl, process_video_request_echoes_instruction
    [("instruction", Json.str "trim 0:00-0:10")] "trim 0:00-0:10"
    "127.0.0.1" [] ⟨[], []⟩ rfl⟩

/-- Claim C2, counterexample: on a POST /process-video request missing
`instruction`, the handler does answer 400, but the error payload is the
Chinese string `缺少必要的参数`, not the literal
`missing required parameter` the claim states. -/
theorem process_video_missing_field_payload_counterexample :
    (serve ⟨Method.POST, "/process-video", "127.0.0.1",
        some (Json.obj []), []⟩ ⟨[], []⟩).1.status = 400 ∧
    (serve ⟨Method.POST, "/process-video", "127.0.0.1",
        some (Json.obj []), []⟩ ⟨[], []⟩).1.body ≠
      Body.json (Json.obj [("error", Json.str "missing required parameter")]) := by
  refine ⟨rfl, ?_⟩
  intro hbody
  simp [serve, dispatch, process_video, truthy, after_request, jsonResp]
    at hbody

/-- Claim C2 as amended: every POST /process-video request whose JSON
object body is missing the `instruction` field gets HTTP 400 with the
error payload binding `error` to `缺少必要的参数` (the Chinese for
`missing required parameter`). -/
theorem process_video_missing_field_400
    (fields : List (String × Json)) (remote : String)
    (files : List (String × FilePart)) (fs : FS)
    (h : lookupField fields "instruction" = none) :
    serve ⟨Method.POST, "/process-video", remote, some (Json.obj fields),
        files⟩ fs =
      (after_request (jsonResp 400
        (Json.obj [("error", Json.str "缺少必要的参数")])), fs) := by
  have hfind : fields.find? (fun kv => kv.1 = "instruction") = none := by
    unfold lookupField at h
    cases hf : fields.find? (fun kv => kv.1 = "instruction") with
    | none => rfl
    | some kv => rw [hf] at h; simp at h
  have hany : fields.any (fun kv => kv.1 = "instruction") = false := by
    rcases hx : fields.any (fun kv => kv.1 = "instruction") with _ | _
    · rfl
    · obtain ⟨x, hxmem, hx1⟩ := List.any_eq_true.mp hx
      have := List.find?_eq_none.mp hfind x hxmem
      simp at hx1
      exact absurd hx1 (by simpa using this)
  by_cases hemp : fields.isEmpty
  · simp [serve, dispatch, process_video, truthy, hemp]
  · simp [serve, dispatch, process_video, truthy, hemp, pyContains, hany]

/-- Witness for the amended C2 at a body without the field. -/
theorem process_video_missing_field_400_witness :
    lookupField [("foo", Json.str "bar")] "instruction" = none ∧
    serve ⟨Method.POST, "/process-video", "127.0.0.1",
        some (Json.obj [("foo", Json.str "bar")]), []⟩ ⟨[], []⟩ =
      (after_request (jsonResp 400
        (Json.obj [("error", Json.str "缺少必要的参数")])), ⟨[], []⟩) :=
  ⟨rfl, process_video_missing_field_400 [("foo", Json.str "bar")]
    "127.0.0.1" [] ⟨[], []⟩ rfl⟩

/-- Claim C3: every POST /upload-video request whose files bind a field
`video` with a non-empty filename gets HTTP 200 reporting success and the
file path; afterwards the upload directory `uploads` exists and the path
holds exactly the uploaded bytes. -/
theorem upload_video_request_success
    (files : List (String × FilePart)) (k f : String) (c : List Nat)
    (remote : String) (body : Option Json) (fs : FS)
    (hfind : files.find? (fun kv => kv.1 = "video") = some (k, ⟨f, c⟩))
    (hne : f ≠ "") :
    (serve ⟨Method.POST, "/upload-video", remote, body, files⟩ fs).1 =
      after_request (jsonResp 200 (Json.obj
        [("status", Json.str "success"),
         ("message", Json.str "视频上传成功"),
         ("file_path", Json.str (os_path_join "uploads" f))])) ∧
    pathExists (serve ⟨Method.POST, "/upload-video", remote, body,
      files⟩ fs).2 "uploads" = true ∧
    readFile (serve ⟨Method.POST, "/upload-video", remote, body,
      files⟩ fs).2 (os_path_join "uploads" f) = some c := by
  have hok := upload_video_ok files (k, ⟨f, c⟩) fs hfind hne
  refine ⟨?_, ?_, ?_⟩
  · simp [serve, dispatch, hok]
  · simp only [serve, dispatch]
    simp [hok, pathExists_uploads_after fs (os_path_join "uploads" f) c
      (file_path_ne_uploads f)]
  · simp only [serve, dispatch]
    simp [hok, readFile_saveFile]

/-- Witness for C3 at a one-field upload of three bytes. -/
theorem upload_video_request_success_witness :
    [("video", (⟨"a.mp4", [1, 2, 3]⟩ : FilePart))].find?
      (fun kv => kv.1 = "video") = some ("video", ⟨"a.mp4", [1, 2, 3]⟩) ∧
    ("a.mp4" : String) ≠ "" ∧
    ((serve ⟨Method.POST, "/upload-video", "127.0.0.1", none,
        [("video", ⟨"a.mp4", [1, 2, 3]⟩)]⟩ ⟨[], []⟩).1 =
      after_request (jsonResp 200 (Json.obj
        [("status", Json.str "success"),
         ("message", Json.str "视频上传成功"),
         ("file_path", Json.str (os_path_join "uploads" "a.mp4"))])) ∧
    pathExists (serve ⟨Method.POST, "/upload-video", "127.0.0.1", none,
      [("video", ⟨"a.mp4", [1, 2, 3]⟩)]⟩ ⟨[], []⟩).2 "uploads" = true ∧
    readFile (serve ⟨Method.POST, "/upload-video", "127.0.0.1", none,
      [("video", ⟨"a.mp4", [1, 2, 3]⟩)]⟩ ⟨[], []⟩).2
      (os_path_join "uploads" "a.mp4") = some [1, 2, 3]) :=
  ⟨rfl, by decide,
   upload_video_request_success [("video", ⟨"a.mp4", [1, 2, 3]⟩)]
     "video" "a.mp4" [1, 2, 3] "127.0.0.1" none ⟨[], []⟩ rfl (by decide)⟩

/-- Claim C4: every POST /upload-video request with no `video` file field,
or whose supplied filename is empty, gets HTTP 400 with a JSON error
payload, and the filesystem is unchanged. -/
theorem upload_video_request_bad_400
    (files : List (String × FilePart)) (remote : String)
    (body : Option Json) (fs : FS)
    (h : files.find? (fun kv => kv.1 = "video") = none ∨
      ∃ kv, files.find? (fun x => x.1 = "video") = some kv ∧
        kv.2.filename = "") :
    (serve ⟨Method.POST, "/upload-video", remote, body, files⟩ fs).1.status
        = 400 ∧
    (∃ msg, (serve ⟨Method.POST, "/upload-video", remote, body,
      files⟩ fs).1.body = Body.json (Json.obj [("error", Json.str msg)])) ∧
    (serve ⟨Method.POST, "/upload-video", remote, body, files⟩ fs).2 = fs := by
  rcases h with hnone | ⟨kv, hfind, hempty⟩
  · refine ⟨?_, ⟨"没有上传文件", ?_⟩, ?_⟩ <;>
      simp [serve, dispatch, upload_video, hnone, after_request, jsonResp]
  · refine ⟨?_, ⟨"未选择文件", ?_⟩, ?_⟩ <;>
      simp [serve, dispatch, upload_video, hfind, hempty, after_request,
        jsonResp]

/-- Witness for C4 at an upload request with no file field. -/
theorem upload_video_request_bad_400_witness :
    (([] : List (String × FilePart)).find? (fun kv => kv.1 = "video")
        = none ∨
      ∃ kv, ([] : List (String × FilePart)).find? (fun x => x.1 = "video")
        = some kv ∧ kv.2.filename = "") ∧
    ((serve ⟨Method.POST, "/upload-video", "127.0.0.1", none, []⟩
        ⟨[], []⟩).1.status = 400 ∧
    (∃ msg, (serve ⟨Method.POST, "/upload-video", "127.0.0.1", none, []⟩
      ⟨[], []⟩).1.body = Body.json (Json.obj [("error", Json.str msg)])) ∧
    (serve ⟨Method.POST, "/upload-video", "127.0.0.1", none, []⟩
      ⟨[], []⟩).2 = ⟨[], []⟩) :=
  ⟨Or.inl rfl,
   upload_video_request_bad_400 [] "127.0.0.1" none ⟨[], []⟩ (Or.inl rfl)⟩

/-- Claim C5: uploading twice under the same non-empty filename succeeds
both times (HTTP 200, no error) and afterwards the path holds exactly the
second upload content: last write wins. -/
theorem upload_video_same_name_overwrites
    (f : String) (c1 c2 : List Nat) (r1 r2 : String)
    (b1 b2 : Option Json) (fs : FS) (hne : f ≠ "") :
    (serve ⟨Method.POST, "/upload-video", r1, b1,
        [("video", ⟨f, c1⟩)]⟩ fs).1.status = 200 ∧
    (serve ⟨Method.POST, "/upload-video", r2, b2, [("video", ⟨f, c2⟩)]⟩
      (serve ⟨Method.POST, "/upload-video", r1, b1,
        [("video", ⟨f, c1⟩)]⟩ fs).2).1.status = 200 ∧
    readFile (serve ⟨Method.POST, "/upload-video", r2, b2,
        [("video", ⟨f, c2⟩)]⟩
      (serve ⟨Method.POST, "/upload-video", r1, b1,
        [("video", ⟨f, c1⟩)]⟩ fs).2).2
      (os_path_join "uploads" f) = some c2 := by
  have h1 := upload_video_ok [("video", ⟨f, c1⟩)] ("video", ⟨f, c1⟩)
    fs (by simp) hne
  have hd1 : dispatch ⟨Method.POST, "/upload-video", r1, b1,
      [("video", ⟨f, c1⟩)]⟩ fs =
    (jsonResp 200 (Json.obj
      [("status", Json.str "success"),
       ("message", Json.str "视频上传成功"),
       ("file_path", Json.str (os_path_join "uploads" f))]),
     saveFile (if pathExists fs "uploads" = true then fs
       else makedirs fs "uploads") (os_path_join "uploads" f) c1) := by
    simp [dispatch, h1]
  have h2 := upload_video_ok [("video", ⟨f, c2⟩)] ("video", ⟨f, c2⟩)
    (saveFile (if pathExists fs "uploads" = true then fs
      else makedirs fs "uploads") (os_path_join "uploads" f) c1)
    (by simp) hne
  have hd2 : dispatch ⟨Method.POST, "/upload-video", r2, b2,
      [("video", ⟨f, c2⟩)]⟩
    (saveFile (if pathExists fs "uploads" = true then fs
      else makedirs fs "uploads") (os_path_join "uploads" f) c1) =
    (jsonResp 200 (Json.obj
      [("status", Json.str "success"),
       ("message", Json.str "视频上传成功"),
       ("file_path", Json.str (os_path_join "uploads" f))]),
     saveFile (saveFile (if pathExists fs "uploads" = true then fs
         else makedirs fs "uploads") (os_path_join "uploads" f) c1)
       (os_path_join "uploads" f) c2) := by
    rw [show saveFile (saveFile (if pathExists fs "uploads" = true then fs
        else makedirs fs "uploads") (os_path_join "uploads" f) c1)
        (os_path_join "uploads" f) c2 =
      saveFile (if pathExists (saveFile (if pathExists fs "uploads" = true
          then fs else makedirs fs "uploads") (os_path_join "uploads" f) c1)
          "uploads" = true
        then saveFile (if pathExists fs "uploads" = true then fs
          else makedirs fs "uploads") (os_path_join "uploads" f) c1
        else makedirs (saveFile (if pathExists fs "uploads" = true then fs
          else makedirs fs "uploads") (os_path_join "uploads" f) c1)
          "uploads") (os_path_join "uploads" f) c2 from by
      rw [if_pos (pathExists_uploads_after fs (os_path_join "uploads" f) c1
        (file_path_ne_uploads f))]]
    simp [dispatch, h2]
  refine ⟨?_, ?_, ?_⟩
  · simp [serve, hd1, after_request, jsonResp]
  · simp [serve, hd1, hd2, after_request, jsonResp]
  · simp [serve, hd1, hd2, readFile_saveFile]

/-- Witness for C5: two uploads of different bytes under one name. -/
theorem upload_video_same_name_overwrites_witness :
    ("a.mp4" : String) ≠ "" ∧
    ((serve ⟨Method.POST, "/upload-video", "127.0.0.1", none,
        [("video", ⟨"a.mp4", [1]⟩)]⟩ ⟨[], []⟩).1.status = 200 ∧
    (serve ⟨Method.POST, "/upload-video", "127.0.0.1", none,
        [("video", ⟨"a.mp4", [2]⟩)]⟩
      (serve ⟨Method.POST, "/upload-video", "127.0.0.1", none,
        [("video", ⟨"a.mp4", [1]⟩)]⟩ ⟨[], []⟩).2).1.status = 200 ∧
    readFile (serve ⟨Method.POST, "/upload-video", "127.0.0.1", none,
        [("video", ⟨"a.mp4", [2]⟩)]⟩
      (serve ⟨Method.POST, "/upload-video", "127.0.0.1", none,
        [("video", ⟨"a.mp4", [1]⟩)]⟩ ⟨[], []⟩).2).2
      (os_path_join "uploads" "a.mp4") = some [2]) :=
  ⟨by decide,
   upload_video_same_name_overwrites "a.mp4" [1] [2] "127.0.0.1"
     "127.0.0.1" none none ⟨[], []⟩ (by decide)⟩

/-- Claim C6, counterexample: the path /static/x matches none of the three
defined routes, yet an OPTIONS request there hits the default static route
and is answered with the automatic empty 200, not 404 `Not found`. -/
theorem static_path_not_404_counterexample :
    ("/static/x" : String) ≠ "/health-check" ∧
    ("/static/x" : String) ≠ "/process-video" ∧
    ("/static/x" : String) ≠ "/upload-video" ∧
    serve ⟨Method.OPTIONS, "/static/x", "127.0.0.1", none, []⟩ ⟨[], []⟩ =
      (after_request (emptyResp 200), ⟨[], []⟩) := by
  refine ⟨by decide, by decide, by decide, ?_⟩
  rfl

/-- Claim C6 as amended: every request whose path matches none of the
three routes and does not fall under the default static route
`/static/<path:filename>` gets HTTP 404 with the JSON body binding
`error` to `Not found`. -/
theorem unknown_path_not_found (req : Request) (fs : FS)
    (h1 : req.path ≠ "/health-check") (h2 : req.path ≠ "/process-video")
    (h3 : req.path ≠ "/upload-video")
    (h4 : staticFilename req.path = none) :
    serve req fs = (after_request not_found, fs) := by
  simp [serve, dispatch, h1, h2, h3, h4]

/-- Witness for the amended C6 at an unregistered path. -/
theorem unknown_path_not_found_witness :
    ("/nope" : String) ≠ "/health-check" ∧
    ("/nope" : String) ≠ "/process-video" ∧
    ("/nope" : String) ≠ "/upload-video" ∧
    staticFilename "/nope" = none ∧
    serve ⟨Method.GET, "/nope", "127.0.0.1", none, []⟩ ⟨[], []⟩ =
      (after_request not_found, ⟨[], []⟩) :=
  ⟨by decide, by decide, by decide, rfl,
   unknown_path_not_found ⟨Method.GET, "/nope", "127.0.0.1", none, []⟩
     ⟨[], []⟩ (by decide) (by decide) (by decide) rfl⟩

/-- Claim C7: every response, for any request and filesystem state,
carries the three CORS headers: wildcard origin, the fixed request-header
allow-list, and the methods list GET,PUT,POST,DELETE,OPTIONS. -/
theorem every_response_has_cors_headers (req : Request) (fs : FS) :
    ("Access-Control-Allow-Origin", "*") ∈ (serve req fs).1.headers ∧
    ("Access-Control-Allow-Headers", "Content-Type,Authorization")
      ∈ (serve req fs).1.headers ∧
    ("Access-Control-Allow-Methods", "GET,PUT,POST,DELETE,OPTIONS")
      ∈ (serve req fs).1.headers := by
  simp [serve, after_request, corsHeaders]

/-- Claim C8: an OPTIONS request to any of the three routes gets HTTP 200
with an empty body, independent of the JSON body, the file fields and the
filesystem, which is left unchanged. -/
theorem options_short_circuits (p remote : String) (body : Option Json)
    (files : List (String × FilePart)) (fs : FS)
    (h : p = "/health-check" ∨ p = "/process-video" ∨ p = "/upload-video") :
    serve ⟨Method.OPTIONS, p, remote, body, files⟩ fs =
      (after_request (emptyResp 200), fs) := by
  rcases h with h | h | h <;> subst h <;>
    simp [serve, dispatch, health_check, process_video, upload_video]

/-- Witness for C8 at the upload route. -/
theorem options_short_circuits_witness :
    (("/upload-video" : String) = "/health-check" ∨
      ("/upload-video" : String) = "/process-video" ∨
      ("/upload-video" : String) = "/upload-video") ∧
    serve ⟨Method.OPTIONS, "/upload-video", "127.0.0.1",
        some (Json.obj [("instruction", Json.str "x")]),
        [("video", ⟨"a.mp4", [1]⟩)]⟩ ⟨[], []⟩ =
      (after_request (emptyResp 200), ⟨[], []⟩) :=
  ⟨Or.inr (Or.inr rfl),
   options_short_circuits "/upload-video" "127.0.0.1"
     (some (Json.obj [("instruction", Json.str "x")]))
     [("video", ⟨"a.mp4", [1]⟩)] ⟨[], []⟩ (Or.inr (Or.inr rfl))⟩

/-- Claim C9: a GET on /health-check answers HTTP 200 with status `ok`,
the fixed human-readable message, and the caller address as `client_ip`,
and leaves the filesystem unchanged. -/
theorem health_check_get_ok (remote : String) (body : Option Json)
    (files : List (String × FilePart)) (fs : FS) :
    serve ⟨Method.GET, "/health-check", remote, body, files⟩ fs =
      (after_request (jsonResp 200 (Json.obj
        [("status", Json.str "ok"),
         ("message", Json.str "服务器运行正常"),
         ("client_ip", Json.str remote)])), fs) := by
  simp [serve, dispatch, health_check]

/-- Claim C10: a POST /process-video whose body parses to the JSON string
`instruction` (a non-empty non-object) is answered with HTTP 500 carrying
the exception text, not the 400 missing-parameter error: the membership
test succeeds as a substring check, and the string subscript then raises. -/
theorem process_video_string_body_500 (remote : String)
    (files : List (String × FilePart)) (fs : FS) :
    serve ⟨Method.POST, "/process-video", remote,
        some (Json.str "instruction"), files⟩ fs =
      (after_request (jsonResp 500 (Json.obj
        [("error", Json.str "string indices must be integers")])), fs) := by
  simp [serve, dispatch, process_video, truthy, pyContains, strContains,
    charsContain, charsStartWith, pyIndex]

end ClipPersona
